import Mathlib

/-!
Verification of syft-awake: a peer-awakeness probe utility for the
SyftBox network. Shallow embedding of `location.py` (geolocation lookup)
and of the network-scan aggregation layer, with theorems for the
spec's claims.
-/

namespace SyftAwake

/-! ## Geolocation lookup (`location.py`, `detect_country`) -/

/-- An HTTP request as issued by `detect_country`: the URL passed to
`urlopen` and the `timeout` keyword argument given with it. -/
structure HttpRequest where
  url : String
  timeout : Nat
  deriving DecidableEq, Repr

/-- The outcome of `json.loads(response.read().decode('utf-8'))` followed by
`data.get(...)`: either a JSON object whose fields we model as string-valued
(`obj`), a JSON value that is not an object, on which `.get` raises and the
final `except Exception` arm catches (`nonObj`), or text that is not JSON,
raising `json.JSONDecodeError` (`invalid`). -/
inductive BodyParse where
  | obj (fields : List (String × String))
  | nonObj
  | invalid
  deriving DecidableEq, Repr

/-- The environment's answer to a `urlopen` call: a connection yielding a
status code and a body (`ok`), or one of the exception classes the source
handles: `urllib.error.HTTPError`, `urllib.error.URLError`, or any other
exception. -/
inductive HttpResult where
  | ok (status : Nat) (body : BodyParse)
  | raiseHTTPError (code : Nat)
  | raiseURLError
  | raiseOther
  deriving DecidableEq, Repr

/-- The URL of the free `country.is` geolocation API used by the source. -/
def countryIsUrl : String := "https://api.country.is/"

/-- The Python default value of `detect_country`'s `timeout` parameter. -/
def detectCountryDefaultTimeout : Nat := 5

/-- `dict.get(key)`: the value of the first field named `key`, else `None`. -/
def getField (fields : List (String × String)) (key : String) : Option String :=
  match fields with
  | [] => none
  | (k, v) :: rest => if k == key then some v else getField rest key

/-- The `try` body of `detect_country` after `urlopen` answers, together
with its `except` arms: on a 200 status the body is decoded and the
`country` field looked up, where `if country_code:` is string truthiness
(non-emptiness); a non-200 status, a decode failure and every exception
arm return `None`. -/
def handleGeoResult : HttpResult → Option String
  | .ok status body =>
    if status == 200 then
      match body with
      | .obj fields =>
        match getField fields "country" with
        | some country_code => if country_code ≠ "" then some country_code else none
        | none => none
      | .nonObj => none
      | .invalid => none
    else
      none
  | .raiseHTTPError _ => none
  | .raiseURLError => none
  | .raiseOther => none

/-- `detect_country(enabled, timeout)` from `location.py`, with the network
modelled as a function `env` from requests to outcomes. Returns the source's
return value paired with the list of HTTP requests issued during the call:
when enabled, the single `urlopen(countryIsUrl, timeout)` call, whose
outcome `handleGeoResult` interprets. -/
def detect_country (enabled : Bool) (timeout : Nat)
    (env : HttpRequest → HttpResult) : Option String × List HttpRequest :=
  if !enabled then
    (none, [])
  else
    let req : HttpRequest := { url := countryIsUrl, timeout := timeout }
    (handleGeoResult (env req), [req])

/-- The failing outcomes of the geolocation HTTP call named by the spec:
`HTTPError`, `URLError`, a non-200 status, a body that is not valid JSON
(or not a JSON object, which raises in `.get` and is caught by the final
`except Exception`), or any other exception. -/
def isFailureOutcome : HttpResult → Bool
  | .ok status body =>
    status != 200 || (match body with | .obj _ => false | .nonObj => true | .invalid => true)
  | .raiseHTTPError _ => true
  | .raiseURLError => true
  | .raiseOther => true

/-! ## Network scan aggregation (`client.py` / `models.py`)

The scan aggregator (`ping_network`) and the summary model
(`NetworkAwakenessSummary`) live in `client.py` and `models.py`. They are
modelled here from the spec: the aggregator pings each peer through an
externally-provided send/receive primitive, classifies every peer into
exactly one of the awake / sleeping / non-responsive buckets, and computes
counts, count-over-total ratios, and a per-country distribution over the
awake responders. The tests (`test_models_location.py`) fix the summary's
fields and the value of both ratio properties. -/

/-- Modelled from the spec: the per-peer outcome delivered by the external
send/receive primitive — a response carrying the peer's awake flag and
optional country code, or a timeout (no response within the per-peer
timeout). `client.py` and `models.py` are not in `src/`. -/
inductive PeerOutcome where
  | responded (is_awake : Bool) (country : Option String)
  | timeout
  deriving DecidableEq, Repr

/-- Modelled from the spec: the `NetworkAwakenessSummary` record of
`models.py` (not in `src/`), with the fields the tests construct; the
`scan_duration_ms` wall-clock field is outside the embedding. -/
structure NetworkAwakenessSummary where
  total_pinged : Nat
  awake_count : Nat
  response_count : Nat
  awake_users : List String
  sleeping_users : List String
  non_responsive : List String
  countries : List (String × Nat)
  deriving DecidableEq, Repr

/-- Modelled from the spec: `awakeness_ratio` is the awake count divided by
the total pinged (the test fixes `2/4 = 0.5`); meaningful only when
`total_pinged > 0`. -/
def NetworkAwakenessSummary.awakeness_ratio (s : NetworkAwakenessSummary) : ℚ :=
  (s.awake_count : ℚ) / (s.total_pinged : ℚ)

/-- Modelled from the spec: `response_ratio` is the response count divided by
the total pinged (the test fixes `3/4 = 0.75`); meaningful only when
`total_pinged > 0`. -/
def NetworkAwakenessSummary.response_ratio (s : NetworkAwakenessSummary) : ℚ :=
  (s.response_count : ℚ) / (s.total_pinged : ℚ)

/-- Did this peer respond at all? -/
def outcomeResponded : PeerOutcome → Bool
  | .responded _ _ => true
  | .timeout => false

/-- Did this peer respond awake? -/
def outcomeAwake : PeerOutcome → Bool
  | .responded a _ => a
  | .timeout => false

/-- Did this peer respond but not awake (the sleeping bucket)? -/
def outcomeSleeping : PeerOutcome → Bool
  | .responded a _ => !a
  | .timeout => false

/-- Did this peer fail to respond (the non-responsive bucket)? -/
def outcomeTimedOut : PeerOutcome → Bool
  | .responded _ _ => false
  | .timeout => true

/-- The country reported by an awake responder, if any. -/
def awakeCountry : String × PeerOutcome → Option String
  | (_, .responded a c) => if a then c else none
  | (_, .timeout) => none

/-- `counts[c] = counts.get(c, 0) + 1` on an association-list dictionary. -/
def bump (m : List (String × Nat)) (c : String) : List (String × Nat) :=
  match m with
  | [] => [(c, 1)]
  | (k, v) :: rest => if k == c then (k, v + 1) :: rest else (k, v) :: bump rest c

/-- The per-country tally of a list of country codes. -/
def tally (cs : List String) : List (String × Nat) :=
  cs.foldl bump []

/-- The count a tally dictionary holds for key `c` (`0` when absent). -/
def valueOf (m : List (String × Nat)) (c : String) : Nat :=
  match m with
  | [] => 0
  | (k, v) :: rest => if k == c then v else valueOf rest c

/-- The sum of the counts a tally dictionary holds. -/
def sumValues (m : List (String × Nat)) : Nat :=
  (m.map Prod.snd).sum

/-- Modelled from the spec: `ping_network` of `client.py` (not in `src/`).
The external send/receive primitive `env` gives every peer's outcome; the
aggregator buckets each pinged peer by its own outcome, counts the awake and
the responsive peers, and tallies the countries of the awake responders. -/
def ping_network (peers : List String) (env : String → PeerOutcome) :
    NetworkAwakenessSummary :=
  let results := peers.map fun p => (p, env p)
  { total_pinged := peers.length
    awake_count := (results.filter fun pr => outcomeAwake pr.2).length
    response_count := (results.filter fun pr => outcomeResponded pr.2).length
    awake_users := (results.filter fun pr => outcomeAwake pr.2).map Prod.fst
    sleeping_users := (results.filter fun pr => outcomeSleeping pr.2).map Prod.fst
    non_responsive := (results.filter fun pr => outcomeTimedOut pr.2).map Prod.fst
    countries := tally (results.filterMap awakeCountry) }

/-- The number of buckets of a summary that hold the peer `p`. -/
def bucketCount (s : NetworkAwakenessSummary) (p : String) : Nat :=
  (if p ∈ s.awake_users then 1 else 0) + (if p ∈ s.sleeping_users then 1 else 0)
    + (if p ∈ s.non_responsive then 1 else 0)

/-- The empty summary a single-pass fold starts from. -/
def emptySummary : NetworkAwakenessSummary :=
  { total_pinged := 0, awake_count := 0, response_count := 0, awake_users := [],
    sleeping_users := [], non_responsive := [], countries := [] }

/-- One step of the direct single-pass reduction the spec describes: fold one
peer's (peer, outcome) pair into the summary, touching only the fields that
peer's own outcome determines. -/
def scanStep (s : NetworkAwakenessSummary) (pr : String × PeerOutcome) :
    NetworkAwakenessSummary :=
  match pr.2 with
  | .responded true country =>
    { s with total_pinged := s.total_pinged + 1
             awake_count := s.awake_count + 1
             response_count := s.response_count + 1
             awake_users := s.awake_users ++ [pr.1]
             countries := match country with
               | some c => bump s.countries c
               | none => s.countries }
  | .responded false _ =>
    { s with total_pinged := s.total_pinged + 1
             response_count := s.response_count + 1
             sleeping_users := s.sleeping_users ++ [pr.1] }
  | .timeout =>
    { s with total_pinged := s.total_pinged + 1
             non_responsive := s.non_responsive ++ [pr.1] }

/-- The direct, single-pass reduction over the list of independent
request/response outcomes, as the spec words it. -/
def scanFold (rs : List (String × PeerOutcome)) : NetworkAwakenessSummary :=
  rs.foldl scanStep emptySummary

/-! ## Helper lemmas -/

/-- Unfolding `detect_country` on an enabled call. -/
lemma detect_country_true_eq (timeout : Nat) (env : HttpRequest → HttpResult) :
    detect_country true timeout env =
      (handleGeoResult (env { url := countryIsUrl, timeout := timeout }),
        [{ url := countryIsUrl, timeout := timeout }]) := rfl

/-- Whatever `handleGeoResult` returns besides `none` is a non-empty field
value of a 200 JSON-object response. -/
lemma handleGeoResult_eq_some (r : HttpResult) (c : String)
    (h : handleGeoResult r = some c) : c ≠ "" := by
  unfold handleGeoResult at h
  repeat' split at h
  all_goals simp_all

/-- Every failing outcome makes `handleGeoResult` return `none`. -/
lemma handleGeoResult_failure (r : HttpResult) (h : isFailureOutcome r = true) :
    handleGeoResult r = none := by
  unfold handleGeoResult
  unfold isFailureOutcome at h
  repeat' split
  all_goals simp_all

/-! ## Claim theorems: geolocation lookup -/

/-- C9: when called with `enabled = False`, `detect_country` returns `None`
immediately and issues no HTTP request, for every timeout value. -/
theorem detect_country_disabled (timeout : Nat) (env : HttpRequest → HttpResult) :
    detect_country false timeout env = (none, []) := rfl

/-- C6: every enabled call performs the lookup through exactly one HTTP GET
to `https://api.country.is/` carrying the caller-supplied timeout, and the
timeout parameter's default is 5 seconds. -/
theorem detect_country_single_request (timeout : Nat) (env : HttpRequest → HttpResult) :
    (detect_country true timeout env).2 = [{ url := countryIsUrl, timeout := timeout }] ∧
      countryIsUrl = "https://api.country.is/" ∧ detectCountryDefaultTimeout = 5 :=
  ⟨rfl, rfl, rfl⟩

/-- C4: `detect_country` is best-effort — on every failing outcome of the
geolocation call (`HTTPError`, `URLError`, non-200 status, invalid JSON, or
any other exception) it returns `None`; the embedding is a total function,
so no exception escapes to the caller. -/
theorem detect_country_failure_none (timeout : Nat) (env : HttpRequest → HttpResult)
    (h : isFailureOutcome (env { url := countryIsUrl, timeout := timeout }) = true) :
    (detect_country true timeout env).1 = none := by
  rw [detect_country_true_eq]
  exact handleGeoResult_failure _ h

/-- Witness for C4 at a concrete failing environment (a `URLError`). -/
theorem detect_country_failure_none_witness :
    (detect_country true 5 (fun _ => HttpResult.raiseURLError)).1 = none :=
  detect_country_failure_none 5 (fun _ => HttpResult.raiseURLError) (by decide)

/-- C5: on an enabled call answered with HTTP 200 and a JSON object whose
`country` field is present and non-empty, `detect_country` returns exactly
that value. -/
theorem detect_country_success (timeout : Nat) (env : HttpRequest → HttpResult)
    (fields : List (String × String)) (c : String)
    (henv : env { url := countryIsUrl, timeout := timeout } =
      HttpResult.ok 200 (BodyParse.obj fields))
    (hget : getField fields "country" = some c) (hne : c ≠ "") :
    (detect_country true timeout env).1 = some c := by
  rw [detect_country_true_eq]
  show handleGeoResult _ = some c
  rw [henv]
  simp [handleGeoResult, hget, hne]

/-- Witness for C5 at a concrete environment answering `{"country": "US"}`. -/
theorem detect_country_success_witness :
    (detect_country true 5
      (fun _ => HttpResult.ok 200 (BodyParse.obj [("country", "US")]))).1 = some "US" :=
  detect_country_success 5 (fun _ => HttpResult.ok 200 (BodyParse.obj [("country", "US")]))
    [("country", "US")] "US" rfl (by decide) (by decide)

/-- C10: every non-`None` value `detect_country` returns is a non-empty
string; a 200 response with a missing or empty `country` field yields
`None`, so the caller never receives an empty country code. -/
theorem detect_country_country_nonempty (timeout : Nat) (env : HttpRequest → HttpResult)
    (c : String) (h : (detect_country true timeout env).1 = some c) : c ≠ "" := by
  rw [detect_country_true_eq] at h
  exact handleGeoResult_eq_some _ _ h

/-- Witness for C10: a concrete run returning `"US"`, which is non-empty. -/
theorem detect_country_country_nonempty_witness : ("US" : String) ≠ "" :=
  detect_country_country_nonempty 5
    (fun _ => HttpResult.ok 200 (BodyParse.obj [("country", "US")])) "US" (by decide)

/-! ## Helper lemmas: scan aggregation -/

/-- A peer is in a bucket of `ping_network` exactly when it was pinged and
its own outcome satisfies the bucket's predicate. -/
lemma mem_bucket_iff (peers : List String) (env : String → PeerOutcome)
    (f : PeerOutcome → Bool) (q : String) :
    q ∈ (((peers.map fun p => (p, env p)).filter fun pr => f pr.2).map Prod.fst) ↔
      q ∈ peers ∧ f (env q) = true := by
  induction peers with
  | nil => simp
  | cons p rest ih =>
    simp only [List.map_cons, List.filter_cons]
    by_cases hf : f (env p) = true
    · rw [if_pos hf]
      simp only [List.map_cons, List.mem_cons, ih]
      constructor
      · rintro (rfl | ⟨hq, hfq⟩)
        · exact ⟨Or.inl rfl, hf⟩
        · exact ⟨Or.inr hq, hfq⟩
      · rintro ⟨rfl | hq, hfq⟩
        · exact Or.inl rfl
        · exact Or.inr ⟨hq, hfq⟩
    · rw [if_neg hf]
      simp only [List.mem_cons, ih]
      constructor
      · rintro ⟨hq, hfq⟩
        exact ⟨Or.inr hq, hfq⟩
      · rintro ⟨rfl | hq, hfq⟩
        · exact absurd hfq hf
        · exact ⟨hq, hfq⟩

/-- Every pinged peer lands in exactly one of the three buckets. -/
lemma bucketCount_ping_network (peers : List String) (env : String → PeerOutcome)
    (p : String) (hp : p ∈ peers) :
    bucketCount (ping_network peers env) p = 1 := by
  simp only [bucketCount, ping_network, mem_bucket_iff]
  rcases ho : env p with ⟨(_ | _), co⟩ | _ <;>
    simp [outcomeAwake, outcomeSleeping, outcomeTimedOut, hp, ho]

/-- The three bucket predicates split every outcome list exactly. -/
lemma filter_three_length (rs : List (String × PeerOutcome)) :
    (rs.filter fun pr => outcomeAwake pr.2).length
      + (rs.filter fun pr => outcomeSleeping pr.2).length
      + (rs.filter fun pr => outcomeTimedOut pr.2).length = rs.length := by
  induction rs with
  | nil => rfl
  | cons pr rest ih =>
    rcases pr with ⟨p, o⟩
    rcases o with ⟨(_ | _), co⟩ | _ <;>
      simp [List.filter_cons, outcomeAwake, outcomeSleeping, outcomeTimedOut] at ih ⊢ <;>
      omega

/-- `bump` raises the count of its key by one and keeps every other count. -/
lemma valueOf_bump (m : List (String × Nat)) (c c' : String) :
    valueOf (bump m c) c' = valueOf m c' + (if c = c' then 1 else 0) := by
  induction m with
  | nil => simp [bump, valueOf]
  | cons kv rest ih =>
    rcases kv with ⟨k, v⟩
    by_cases hk : k = c
    · subst hk
      by_cases hk' : k = c' <;> simp [bump, valueOf, hk']
    · by_cases hk' : k = c'
      · subst hk'
        have h2 : ¬(c = k) := fun h => hk h.symm
        simp [bump, valueOf, hk, h2]
      · simp [bump, valueOf, hk, hk', ih]

/-- Folding `bump` over a list of codes adds each code's multiplicity. -/
lemma valueOf_foldl_bump (cs : List String) (m : List (String × Nat)) (c : String) :
    valueOf (cs.foldl bump m) c = valueOf m c + cs.countP (fun x => decide (x = c)) := by
  induction cs generalizing m with
  | nil => simp
  | cons c0 rest ih =>
    rw [List.foldl_cons, ih, valueOf_bump, List.countP_cons]
    by_cases hc : c0 = c <;> simp [hc] <;> omega

/-- `bump` adds exactly one to the sum of the counts. -/
lemma sumValues_bump (m : List (String × Nat)) (c : String) :
    sumValues (bump m c) = sumValues m + 1 := by
  induction m with
  | nil => rfl
  | cons kv rest ih =>
    rcases kv with ⟨k, v⟩
    by_cases hk : k = c <;> simp [bump, sumValues, hk] at ih ⊢ <;> omega

/-- Folding `bump` adds the length of the code list to the sum of counts. -/
lemma sumValues_foldl_bump (cs : List String) (m : List (String × Nat)) :
    sumValues (cs.foldl bump m) = sumValues m + cs.length := by
  induction cs generalizing m with
  | nil => simp
  | cons c0 rest ih =>
    rw [List.foldl_cons, ih, sumValues_bump]
    simp only [List.length_cons]
    omega

/-- The country codes the scan tallies for `c` are exactly the pinged peers
whose own outcome is an awake response reporting `c`. -/
lemma countP_filterMap_awakeCountry (peers : List String) (env : String → PeerOutcome)
    (c : String) :
    ((peers.map fun p => (p, env p)).filterMap awakeCountry).countP (fun x => decide (x = c))
      = peers.countP fun p => decide (env p = PeerOutcome.responded true (some c)) := by
  induction peers with
  | nil => rfl
  | cons p rest ih =>
    rcases ho : env p with ⟨(_ | _), (_ | c0)⟩ | _ <;>
      simp [List.map_cons, List.filterMap_cons, List.countP_cons, awakeCountry, ho, ih,
        -List.filterMap_map]

/-- At most one country code is tallied per awake responder. -/
lemma length_filterMap_awakeCountry_le (rs : List (String × PeerOutcome)) :
    (rs.filterMap awakeCountry).length ≤ (rs.filter fun pr => outcomeAwake pr.2).length := by
  induction rs with
  | nil => exact Nat.le_refl 0
  | cons pr rest ih =>
    rcases pr with ⟨p, o⟩
    rcases o with ⟨(_ | _), (_ | c0)⟩ | _ <;>
      simp [List.filterMap_cons, List.filter_cons, awakeCountry, outcomeAwake] at ih ⊢ <;>
      omega

/-- Folding `scanStep` over an outcome list grows a summary by exactly the
classification of that list: counts add, buckets append, countries bump. -/
lemma foldl_scanStep (rs : List (String × PeerOutcome)) (s : NetworkAwakenessSummary) :
    rs.foldl scanStep s =
      { total_pinged := s.total_pinged + rs.length
        awake_count := s.awake_count + (rs.filter fun pr => outcomeAwake pr.2).length
        response_count := s.response_count + (rs.filter fun pr => outcomeResponded pr.2).length
        awake_users := s.awake_users ++ (rs.filter fun pr => outcomeAwake pr.2).map Prod.fst
        sleeping_users :=
          s.sleeping_users ++ (rs.filter fun pr => outcomeSleeping pr.2).map Prod.fst
        non_responsive :=
          s.non_responsive ++ (rs.filter fun pr => outcomeTimedOut pr.2).map Prod.fst
        countries := (rs.filterMap awakeCountry).foldl bump s.countries } := by
  induction rs generalizing s with
  | nil => simp
  | cons pr rest ih =>
    rcases pr with ⟨p, o⟩
    rw [List.foldl_cons, ih]
    rcases o with ⟨(_ | _), (_ | c0)⟩ | _ <;>
      simp [scanStep, List.filter_cons, List.filterMap_cons, List.foldl_cons,
        outcomeAwake, outcomeSleeping, outcomeTimedOut, outcomeResponded, awakeCountry,
        -List.filterMap_map, NetworkAwakenessSummary.mk.injEq] <;>
      omega

/-! ## Claim theorems: scan aggregation -/

/-- C1 (spec-modelled): every pinged peer lands in exactly one of the three
buckets `awake_users`, `sleeping_users`, `non_responsive`, and the sizes of
the three buckets sum to `total_pinged`. -/
theorem ping_network_partition (peers : List String) (env : String → PeerOutcome) :
    (∀ p ∈ peers, bucketCount (ping_network peers env) p = 1) ∧
      (ping_network peers env).awake_users.length
          + (ping_network peers env).sleeping_users.length
          + (ping_network peers env).non_responsive.length
        = (ping_network peers env).total_pinged := by
  refine ⟨fun p hp => bucketCount_ping_network peers env p hp, ?_⟩
  show (((peers.map fun p => (p, env p)).filter fun pr => outcomeAwake pr.2).map Prod.fst).length
      + _ + _ = peers.length
  simp only [ping_network, List.length_map]
  rw [filter_three_length]
  exact List.length_map peers _

/-- C2 (spec-modelled): with `total_pinged > 0`, `awakeness_ratio` is
`awake_count / total_pinged` and `response_ratio` is
`response_count / total_pinged`, exactly (multiplying back by the total
recovers the count, so no division by zero is involved). -/
theorem ping_network_ratios (peers : List String) (env : String → PeerOutcome)
    (h : 0 < (ping_network peers env).total_pinged) :
    (ping_network peers env).awakeness_ratio
        = ((ping_network peers env).awake_count : ℚ)
          / ((ping_network peers env).total_pinged : ℚ) ∧
      (ping_network peers env).awakeness_ratio * ((ping_network peers env).total_pinged : ℚ)
        = ((ping_network peers env).awake_count : ℚ) ∧
      (ping_network peers env).response_ratio
        = ((ping_network peers env).response_count : ℚ)
          / ((ping_network peers env).total_pinged : ℚ) ∧
      (ping_network peers env).response_ratio * ((ping_network peers env).total_pinged : ℚ)
        = ((ping_network peers env).response_count : ℚ) := by
  have hne : (((ping_network peers env).total_pinged : ℚ)) ≠ 0 := by
    exact_mod_cast Nat.pos_iff_ne_zero.mp h
  refine ⟨rfl, ?_, rfl, ?_⟩
  · rw [NetworkAwakenessSummary.awakeness_ratio, div_mul_cancel₀ _ hne]
  · rw [NetworkAwakenessSummary.response_ratio, div_mul_cancel₀ _ hne]

/-- Witness for C2: a single-peer scan where the one peer answers awake. -/
theorem ping_network_ratios_witness :
    (ping_network ["a"] fun _ => PeerOutcome.responded true none).awakeness_ratio
        = ((ping_network ["a"] fun _ => PeerOutcome.responded true none).awake_count : ℚ)
          / ((ping_network ["a"] fun _ => PeerOutcome.responded true none).total_pinged : ℚ) ∧
      (ping_network ["a"] fun _ => PeerOutcome.responded true none).awakeness_ratio
          * ((ping_network ["a"] fun _ => PeerOutcome.responded true none).total_pinged : ℚ)
        = ((ping_network ["a"] fun _ => PeerOutcome.responded true none).awake_count : ℚ) ∧
      (ping_network ["a"] fun _ => PeerOutcome.responded true none).response_ratio
        = ((ping_network ["a"] fun _ => PeerOutcome.responded true none).response_count : ℚ)
          / ((ping_network ["a"] fun _ => PeerOutcome.responded true none).total_pinged : ℚ) ∧
      (ping_network ["a"] fun _ => PeerOutcome.responded true none).response_ratio
          * ((ping_network ["a"] fun _ => PeerOutcome.responded true none).total_pinged : ℚ)
        = ((ping_network ["a"] fun _ => PeerOutcome.responded true none).response_count : ℚ) :=
  ping_network_ratios ["a"] (fun _ => PeerOutcome.responded true none) (by decide)

/-- C3 (spec-modelled): the summary's `countries` field maps every country
code to the number of awake responders reporting it, and its values sum to
at most `awake_count`. -/
theorem ping_network_countries (peers : List String) (env : String → PeerOutcome) :
    (∀ c, valueOf (ping_network peers env).countries c
        = peers.countP fun p => decide (env p = PeerOutcome.responded true (some c))) ∧
      sumValues (ping_network peers env).countries ≤ (ping_network peers env).awake_count := by
  constructor
  · intro c
    show valueOf (tally ((peers.map fun p => (p, env p)).filterMap awakeCountry)) c = _
    rw [tally, valueOf_foldl_bump, countP_filterMap_awakeCountry]
    simp [valueOf]
  · show sumValues (tally ((peers.map fun p => (p, env p)).filterMap awakeCountry))
      ≤ (((peers.map fun p => (p, env p)).filter fun pr => outcomeAwake pr.2)).length
    rw [tally, sumValues_foldl_bump]
    simpa [sumValues] using length_filterMap_awakeCountry_le (peers.map fun p => (p, env p))

/-- C8 (spec-modelled): the whole summary equals a direct single-pass fold
over the list of independent per-peer outcomes, each peer's classification
depending only on its own outcome (`scanStep` reads nothing but the pair it
is given). -/
theorem ping_network_eq_scanFold (peers : List String) (env : String → PeerOutcome) :
    ping_network peers env = scanFold (peers.map fun p => (p, env p)) := by
  rw [scanFold, foldl_scanStep]
  simp [ping_network, emptySummary, tally, List.length_map, -List.filterMap_map]

end SyftAwake
